import Mathlib

/-!
Verification development for the reminder service in `reminderbot.py`.

The embedding models the temporal scheduling and recurrence core:
time arithmetic as performed by python `datetime` values carrying pytz
timezone info, the reminder store (a JSON dictionary keyed by reminder id),
the job queue (`JobQueue.run_once` appends a pending job), the tier and
credit policy, the recurrence calculator `_next_occurrence`, the fire
handler `_run_reminder_job`, the startup pass `schedule_all_on_startup`,
and the snooze branch of `on_callback`.

Instants are integers counting seconds; day index 0 is a Monday, so the
weekday of a naive value `n` is `(n / 86400) % 7` with 0 = Monday, matching
the convention of python `weekday()`. Python floor division and modulo
agree with the Euclidean `/` and `%` of `Int` for the positive divisors
used here (86400 and 7), so the embedding uses the latter.
-/

namespace ReminderBot

/-- Model of an IANA timezone as pytz exposes it: the UTC offset in seconds
east of UTC, as a function of the absolute UTC instant. A DST zone is an
offset that changes with the instant. -/
structure Timezone where
  utcOffset : Int → Int

/-- Model of a python aware datetime carrying a pytz tzinfo: the naive local
wall-clock value in seconds, together with the fixed UTC offset baked into
the tzinfo instance. `timedelta` arithmetic on such a value acts on the
naive fields and keeps the tzinfo object unchanged, hence keeps the offset. -/
structure AwareDT where
  naive : Int
  off : Int
  deriving DecidableEq, Repr

/-- Model of `from_iso(s).astimezone(tz)` applied to the stored UTC instant
`t`: pytz resolves the offset valid at `t` and attaches it. -/
def astimezone (tz : Timezone) (t : Int) : AwareDT :=
  ⟨t + tz.utcOffset t, tz.utcOffset t⟩

/-- Model of `.astimezone(pytz.UTC)`: the UTC instant an aware datetime
denotes, namely its naive fields minus its baked-in offset. -/
def AwareDT.toUTC (a : AwareDT) : Int :=
  a.naive - a.off

/-- Model of `a + timedelta(...)` on an aware datetime: python adds to the
naive fields and keeps the tzinfo (so the offset) unchanged. -/
def AwareDT.addSeconds (a : AwareDT) (d : Int) : AwareDT :=
  ⟨a.naive + d, a.off⟩

/-- Model of `.weekday()` on an aware datetime: computed from the naive
calendar fields, 0 = Monday. -/
def AwareDT.weekday (a : AwareDT) : Int :=
  (a.naive / 86400) % 7

/-- The true local wall-clock time of day (seconds past local midnight) of a
UTC instant `t` in the zone named `name` of the timezone database `db`. -/
def localClock (db : String → Timezone) (name : String) (t : Int) : Int :=
  (t + (db name).utcOffset t) % 86400

/-- The true local day index of a UTC instant `t` in the named zone. -/
def localDay (db : String → Timezone) (name : String) (t : Int) : Int :=
  (t + (db name).utcOffset t) / 86400

/-- The true local weekday (0 = Monday) of a UTC instant `t` in the named
zone. -/
def localWeekday (db : String → Timezone) (name : String) (t : Int) : Int :=
  localDay db name t % 7

/-- The recurrence descriptor dictionary `{type, interval, dow}` of a
reminder: `type` is a string, `interval` defaults to 1 when read, `dow` is
optional (read with default `base.weekday()`). -/
structure Recurring where
  rtype : String
  interval : Int := 1
  dow : Option Int := none
  deriving DecidableEq, Repr

/-- The `Reminder` dataclass. `when_iso` is stored as an ISO string of an
absolute UTC instant and `from_iso`/`to_iso` round-trip it losslessly, so it
is modelled directly as the UTC instant. The nested dictionary payload of
`location` is opaque to the scheduling core and abstracted as a string. -/
structure Reminder where
  id : String
  chat_id : Int
  user_id : Int
  text : String
  when_iso : Int
  timezone : String
  created_at : Int
  snoozes_used : Int := 0
  recurring : Option Recurring := none
  done : Bool := false
  category : Option String := none
  priority : Int := 1
  tags : Option (List String) := none
  location : Option String := none
  template_id : Option String := none
  deriving DecidableEq, Repr

/-- The `UserProfile` dataclass (bookkeeping fields that the policy never
reads are omitted). -/
structure UserProfile where
  user_id : Int
  timezone : String := "UTC"
  is_premium : Bool := false
  premium_tier : String := "FREE"
  credits : Int := 15
  deriving DecidableEq, Repr

/-- The `RedeemCode` dataclass. -/
structure RedeemCode where
  code : String
  kind : String
  amount : Int
  expires_at : Option Int := none
  max_uses : Int := 1
  used : Int := 0
  plan_name : Option String := none
  deriving DecidableEq, Repr

/-- One entry of `PREMIUM_TIERS`. -/
structure TierInfo where
  max_active : Int
  snooze_limit : Int
  features : List String
  deriving DecidableEq, Repr

/-- The `PREMIUM_TIERS["FREE"]` entry. -/
def FREE_TIER_INFO : TierInfo :=
  ⟨20, 1, ["basic_reminders", "simple_recurring"]⟩

/-- The `PREMIUM_TIERS` dictionary, as the partial lookup `dict.get`. -/
def PREMIUM_TIERS (tier : String) : Option TierInfo :=
  if tier = "FREE" then some FREE_TIER_INFO
  else if tier = "SILVER" then
    some ⟨100, 3, ["basic_reminders", "simple_recurring", "categories", "templates"]⟩
  else if tier = "GOLD" then
    some ⟨300, 5, ["basic_reminders", "simple_recurring", "categories", "templates",
      "smart_scheduling", "location_reminders"]⟩
  else if tier = "PLATINUM" then
    some ⟨1000, 10, ["basic_reminders", "simple_recurring", "categories", "templates",
      "smart_scheduling", "location_reminders", "ai_suggestions", "team_sharing",
      "priority_support"]⟩
  else none

/-- `get_user_tier_info`: the tier key is `premium_tier` when `is_premium`
and `FREE` otherwise, looked up with `PREMIUM_TIERS["FREE"]` as the
`dict.get` default. -/
def get_user_tier_info (profile : UserProfile) : TierInfo :=
  let tier := if profile.is_premium then profile.premium_tier else "FREE"
  (PREMIUM_TIERS tier).getD FREE_TIER_INFO

/-- `CreditPolicy.can_create`: the limit check runs first, then the credit
check for non-premium profiles. Refusal messages are presentation text and
are abbreviated to their subject. -/
def can_create (profile : UserProfile) (active_count : Int) : Bool × Option String :=
  let limit := (get_user_tier_info profile).max_active
  if active_count ≥ limit then (false, some "Reminder Limit Reached")
  else if ¬ profile.is_premium ∧ profile.credits ≤ 0 then (false, some "No Credits Remaining")
  else (true, none)

/-- `CreditPolicy.consume_on_create`. -/
def consume_on_create (profile : UserProfile) : Int :=
  if profile.is_premium then 0 else 1

/-- `CreditPolicy.get_snooze_limit`. -/
def get_snooze_limit (profile : UserProfile) : Int :=
  (get_user_tier_info profile).snooze_limit

/-- The plan branch of the redeem flow (`kind == "plan"`): sets
`is_premium` and copies `plan_name or "PREMIUM"` into `premium_tier`. -/
def redeem_plan (profile : UserProfile) (code : RedeemCode) : UserProfile :=
  { profile with is_premium := true, premium_tier := code.plan_name.getD "PREMIUM" }

/-- The JSON dictionary backing `ReminderStore`, keyed by reminder id. -/
abbrev Store := List (String × Reminder)

/-- `ReminderStore.get`: `data.get(reminder_id)`. -/
def storeGet (s : Store) (rid : String) : Option Reminder :=
  (s.find? (fun p => p.1 = rid)).map Prod.snd

/-- `ReminderStore.put`: `data[reminder.id] = asdict(reminder)` — replace
the binding of `reminder.id` or add one. -/
def storePut : Store → Reminder → Store
  | [], r => [(r.id, r)]
  | (k, v) :: rest, r => if k = r.id then (k, r) :: rest else (k, v) :: storePut rest r

/-- A pending job created by `JobQueue.run_once(callback, when, name, data)`. -/
structure Job where
  when : Int
  name : String
  data : String
  deriving DecidableEq, Repr

/-- `ReminderScheduler.schedule_once`: `jq.run_once(self._run_reminder_job,
when, name=reminder_id, data=reminder_id)` registers a new pending job (the
job queue is taken as available; the `job_queue is None` guard is a
deployment-configuration branch). -/
def schedule_once (jobs : List Job) (when : Int) (reminder_id : String) : List Job :=
  jobs ++ [⟨when, reminder_id, reminder_id⟩]

/-- The day-by-day advance loop of the weekly branch of `_next_occurrence`:
`while next_local.weekday() != dow: next_local += timedelta(days=1)`. The
source loop is unbounded; fuel 7 reproduces it exactly whenever the target
weekday lies in 0..6, because the naive weekday cycles through all seven
values in seven single-day steps. -/
def advanceToWeekday (dow : Int) : Nat → AwareDT → AwareDT
  | 0, a => a
  | fuel + 1, a => if a.weekday = dow then a else advanceToWeekday dow fuel (a.addSeconds 86400)

/-- `ReminderScheduler._next_occurrence`: converts the stored instant into
the stored timezone, adds `interval` days or weeks with `timedelta`
arithmetic (naive fields, offset kept), advances weekly results to the
target weekday, and converts back to UTC. Unknown kinds give `none`; an
absent descriptor reads as the empty dictionary, whose `type` is also
unknown. -/
def nextOccurrence (db : String → Timezone) (r : Reminder) : Option Int :=
  match r.recurring with
  | none => none
  | some rc =>
    let tz := db r.timezone
    let base := astimezone tz r.when_iso
    if rc.rtype = "daily" then
      some ((base.addSeconds (rc.interval * 86400)).toUTC)
    else if rc.rtype = "weekly" then
      let dow := rc.dow.getD base.weekday
      let next_local := advanceToWeekday dow 7 (base.addSeconds (rc.interval * (7 * 86400)))
      some next_local.toUTC
    else none

/-- Outcome of one invocation of the fire handler: the store and pending-job
list after the handler returns, whether a delivery was attempted (a message
send was issued), and whether that delivery succeeded. -/
structure FireResult where
  store : Store
  jobs : List Job
  attempted : Bool
  delivered : Bool
  deriving Repr

/-- `ReminderScheduler._run_reminder_job`: re-read the reminder from the
store; if absent or done, return. Otherwise attempt delivery — `sendOk`
says whether the `send_message` call succeeds or raises — and in the
`finally` block, run the state transition regardless of the outcome:
recurring reminders advance `when_iso` to the next occurrence, are
persisted, and re-armed; non-recurring reminders are marked done and
persisted. The fired job itself is consumed by the job-queue substrate,
which is outside this function. -/
def run_reminder_job (db : String → Timezone) (store : Store) (jobs : List Job)
    (reminder_id : String) (sendOk : Bool) : FireResult :=
  match storeGet store reminder_id with
  | none => ⟨store, jobs, false, false⟩
  | some r =>
    if r.done then ⟨store, jobs, false, false⟩
    else
      match r.recurring with
      | some _ =>
        match nextOccurrence db r with
        | some next_when =>
          ⟨storePut store { r with when_iso := next_when },
           schedule_once jobs next_when r.id, true, sendOk⟩
        | none => ⟨store, jobs, true, sendOk⟩
      | none =>
        ⟨storePut store { r with done := true }, jobs, true, sendOk⟩

/-- The instant at which the startup pass arms a reminder: the stored
instant, or now plus a 2-second grace delay when the stored instant is
already past. -/
def startupWhen (now : Int) (r : Reminder) : Int :=
  if r.when_iso < now then now + 2 else r.when_iso

/-- `ReminderScheduler.schedule_all_on_startup`: iterate over every stored
reminder, skip the done ones, substitute now + 2 seconds for past instants,
and arm each survivor with `schedule_once`. -/
def schedule_all_on_startup (store : Store) (jobs : List Job) (now : Int) : List Job :=
  store.foldl (fun js p => if p.2.done then js else schedule_once js (startupWhen now p.2) p.2.id)
    jobs

/-- Outcome reported by the snooze branch of `on_callback`. -/
inductive SnoozeOutcome
  | notAvailable
  | limitReached
  | snoozed
  deriving DecidableEq, Repr

/-- State after the snooze branch of `on_callback`. -/
structure SnoozeResult where
  store : Store
  jobs : List Job
  outcome : SnoozeOutcome
  deriving Repr

/-- The snooze branch of `on_callback`: look up the reminder, refuse when it
is absent or not owned by the caller, refuse when `snoozes_used` has
reached the tier snooze limit, and otherwise set the due instant to now
plus `minutes` minutes, increment `snoozes_used`, persist, and re-arm with
`schedule_once`. -/
def snooze_action (store : Store) (jobs : List Job) (caller : Int) (profile : UserProfile)
    (rid : String) (minutes : Int) (now : Int) : SnoozeResult :=
  match storeGet store rid with
  | none => ⟨store, jobs, .notAvailable⟩
  | some r =>
    if r.user_id ≠ caller then ⟨store, jobs, .notAvailable⟩
    else if r.snoozes_used ≥ get_snooze_limit profile then ⟨store, jobs, .limitReached⟩
    else
      let new_when := now + minutes * 60
      let r2 := { r with when_iso := new_when, snoozes_used := r.snoozes_used + 1 }
      ⟨storePut store r2, schedule_once jobs new_when r.id, .snoozed⟩

/-! Concrete instances used to evaluate the development on explicit inputs. -/

/-- A DST-style zone: offset 0 before instant 100000 and +3600 from then on
(a spring-forward transition). -/
def dstTz : Timezone := ⟨fun t => if t < 100000 then 0 else 3600⟩

/-- A timezone database mapping every name to `dstTz`. -/
def dstDb : String → Timezone := fun _ => dstTz

/-- A DST-style zone with its spring-forward transition at instant 950400. -/
def dstTz2 : Timezone := ⟨fun t => if t < 950400 then 0 else 3600⟩

/-- A timezone database mapping every name to `dstTz2`. -/
def dstDb2 : String → Timezone := fun _ => dstTz2

/-- A timezone database of fixed-offset-zero zones. -/
def utcDb : String → Timezone := fun _ => ⟨fun _ => 0⟩

/-- A daily reminder due at local 10:00 the day before the `dstTz`
transition. -/
def dailyRem : Reminder :=
  { id := "r-daily", chat_id := 1, user_id := 7, text := "stretch",
    when_iso := 36000, timezone := "Ex/DST", created_at := 0,
    recurring := some { rtype := "daily", interval := 1 } }

/-- A weekly reminder due Saturday 23:00 local, one week before landing past
the `dstTz2` transition, targeting weekday 5 (Saturday). -/
def weeklyRem : Reminder :=
  { id := "r-weekly", chat_id := 1, user_id := 7, text := "water plants",
    when_iso := 514800, timezone := "Ex/DST2", created_at := 0,
    recurring := some { rtype := "weekly", interval := 1, dow := some 5 } }

/-- A plain one-shot reminder due at instant 100. -/
def oneShotRem : Reminder :=
  { id := "r1", chat_id := 1, user_id := 7, text := "call",
    when_iso := 100, timezone := "UTC", created_at := 0 }

/-- A store holding only `oneShotRem`. -/
def oneShotStore : Store := [("r1", oneShotRem)]

/-- A free-tier profile with the initial credit grant. -/
def freeProfile : UserProfile := { user_id := 7 }

/-- A weekly reminder in a fixed-offset zone, due Monday 00:00, targeting
weekday 2 (Wednesday). -/
def weeklyUtcRem : Reminder :=
  { id := "r-w2", chat_id := 1, user_id := 7, text := "gym",
    when_iso := 0, timezone := "UTC", created_at := 0,
    recurring := some { rtype := "weekly", interval := 1, dow := some 2 } }

/-- A daily-recurring reminder due at instant 500. -/
def recurRem : Reminder :=
  { id := "r2", chat_id := 2, user_id := 7, text := "standup",
    when_iso := 500, timezone := "UTC", created_at := 0, snoozes_used := 1,
    recurring := some { rtype := "daily", interval := 1 } }

/-- A store holding only `recurRem`. -/
def recurStore : Store := [("r2", recurRem)]

/-- A reminder already past due at startup instant 1000. -/
def pastRem : Reminder :=
  { id := "p", chat_id := 1, user_id := 7, text := "past",
    when_iso := 500, timezone := "UTC", created_at := 0 }

/-- A completed reminder. -/
def doneRem : Reminder :=
  { id := "q", chat_id := 1, user_id := 7, text := "done",
    when_iso := 700, timezone := "UTC", created_at := 0, done := true }

/-- A reminder still in the future at startup instant 1000. -/
def futureRem : Reminder :=
  { id := "f", chat_id := 1, user_id := 7, text := "future",
    when_iso := 5000, timezone := "UTC", created_at := 0 }

/-- A startup store with one past-due, one completed and one future
reminder. -/
def startupStore : Store := [("p", pastRem), ("q", doneRem), ("f", futureRem)]

/-- A plan redeem code whose plan name is not a known tier. -/
def planCode : RedeemCode :=
  { code := "MIKU-DIA-ABC123", kind := "plan", amount := 0, plan_name := some "DIAMOND" }

/-! Helper lemmas. -/

theorem weekday_bounds (a : AwareDT) : 0 ≤ a.weekday ∧ a.weekday < 7 := by
  unfold AwareDT.weekday
  omega

theorem weekday_addDay (a : AwareDT) : (a.addSeconds 86400).weekday = (a.weekday + 1) % 7 := by
  unfold AwareDT.weekday AwareDT.addSeconds
  simp only
  omega

theorem advanceToWeekday_off (dow : Int) (fuel : Nat) (a : AwareDT) :
    (advanceToWeekday dow fuel a).off = a.off := by
  induction fuel generalizing a with
  | zero => rfl
  | succ n ih =>
    unfold advanceToWeekday
    by_cases h : a.weekday = dow
    · rw [if_pos h]
    · rw [if_neg h, ih]
      rfl

theorem advanceToWeekday_naive_ge (dow : Int) (fuel : Nat) (a : AwareDT) :
    a.naive ≤ (advanceToWeekday dow fuel a).naive := by
  induction fuel generalizing a with
  | zero => exact le_refl _
  | succ n ih =>
    unfold advanceToWeekday
    by_cases h : a.weekday = dow
    · rw [if_pos h]
    · rw [if_neg h]
      have h2 := ih (a.addSeconds 86400)
      have h3 : (a.addSeconds 86400).naive = a.naive + 86400 := rfl
      omega

theorem advanceToWeekday_weekday (dow : Int) (fuel : Nat) (a : AwareDT)
    (h0 : 0 ≤ dow) (h7 : dow < 7) (h : (dow - a.weekday) % 7 < (fuel : Int)) :
    (advanceToWeekday dow fuel a).weekday = dow := by
  induction fuel generalizing a with
  | zero =>
    exfalso
    have hb := weekday_bounds a
    omega
  | succ n ih =>
    unfold advanceToWeekday
    by_cases hw : a.weekday = dow
    · rw [if_pos hw]
      exact hw
    · rw [if_neg hw]
      apply ih
      rw [weekday_addDay]
      have hb := weekday_bounds a
      push_cast at h ⊢
      omega

theorem nextOccurrence_daily (db : String → Timezone) (r : Reminder) (rc : Recurring)
    (hrec : r.recurring = some rc) (hk : rc.rtype = "daily") :
    nextOccurrence db r = some (r.when_iso + rc.interval * 86400) := by
  unfold nextOccurrence
  rw [hrec]
  simp [hk, astimezone, AwareDT.addSeconds, AwareDT.toUTC]
  try ring

theorem nextOccurrence_weekly (db : String → Timezone) (r : Reminder) (rc : Recurring)
    (hrec : r.recurring = some rc) (hk : rc.rtype = "weekly") :
    nextOccurrence db r =
      some ((advanceToWeekday (rc.dow.getD (astimezone (db r.timezone) r.when_iso).weekday) 7
        ((astimezone (db r.timezone) r.when_iso).addSeconds (rc.interval * (7 * 86400)))).toUTC) := by
  unfold nextOccurrence
  rw [hrec]
  simp [hk]

theorem storeGet_storePut_self (s : Store) (r : Reminder) :
    storeGet (storePut s r) r.id = some r := by
  induction s with
  | nil => simp [storePut, storeGet]
  | cons p rest ih =>
    obtain ⟨k, v⟩ := p
    by_cases h : k = r.id
    · simp [storePut, storeGet, h]
    · simp only [storePut, if_neg h]
      simpa [storeGet, List.find?_cons, h] using ih

theorem advance_toUTC_weekday (dow : Int) (a : AwareDT) (h0 : 0 ≤ dow) (h7 : dow < 7) :
    (((advanceToWeekday dow 7 a).toUTC + a.off) / 86400) % 7 = dow := by
  have hoff := advanceToWeekday_off dow 7 a
  have hw := advanceToWeekday_weekday dow 7 a h0 h7 (by push_cast; omega)
  unfold AwareDT.toUTC
  rw [hoff]
  simpa [AwareDT.weekday] using hw

theorem schedule_all_spec (store : Store) (jobs : List Job) (now : Int) :
    schedule_all_on_startup store jobs now =
      jobs ++ (store.filter (fun p => !p.2.done)).map
        (fun p => ⟨startupWhen now p.2, p.2.id, p.2.id⟩) := by
  induction store generalizing jobs with
  | nil => simp [schedule_all_on_startup]
  | cons p rest ih =>
    unfold schedule_all_on_startup at ih ⊢
    rw [List.foldl_cons]
    by_cases h : p.2.done
    · rw [if_pos h]
      rw [ih jobs]
      simp [h]
    · rw [if_neg h]
      rw [ih (schedule_once jobs (startupWhen now p.2) p.2.id)]
      simp [h, schedule_once]

/-! Claim theorems. -/

/-- C1 (amended): for a daily recurrence descriptor with interval `k`, the
Recurrence Calculator returns the instant exactly `k * 86400` seconds later
in absolute time. For `k ≥ 1` the result is strictly later, so repeated
application is strictly increasing; the result keeps the local hour, minute
and second of the input and lands on the local day exactly `k` days later
precisely when the UTC offset of the stored timezone at the new instant equals
its offset at the input instant — on a DST transition the local wall-clock
time shifts by the offset change instead of being preserved. -/
theorem C1_daily_advances_absolute_interval (db : String → Timezone) (r : Reminder)
    (rc : Recurring) (hrec : r.recurring = some rc) (hk : rc.rtype = "daily") :
    nextOccurrence db r = some (r.when_iso + rc.interval * 86400) ∧
    (1 ≤ rc.interval → r.when_iso < r.when_iso + rc.interval * 86400) ∧
    ((db r.timezone).utcOffset (r.when_iso + rc.interval * 86400) =
        (db r.timezone).utcOffset r.when_iso →
      localClock db r.timezone (r.when_iso + rc.interval * 86400) =
          localClock db r.timezone r.when_iso ∧
      localDay db r.timezone (r.when_iso + rc.interval * 86400) =
          localDay db r.timezone r.when_iso + rc.interval) := by
  refine ⟨nextOccurrence_daily db r rc hrec hk, ?_, ?_⟩
  · intro h1
    omega
  · intro hoff
    unfold localClock localDay
    rw [hoff]
    omega

/-- C1 witness: a concrete daily reminder advances by exactly one absolute
day, strictly forward. -/
theorem C1_daily_advances_absolute_interval_witness :
    nextOccurrence dstDb dailyRem = some (36000 + 1 * 86400) ∧
    (36000 : Int) < 36000 + 1 * 86400 := by
  have h := C1_daily_advances_absolute_interval dstDb dailyRem
    { rtype := "daily", interval := 1, dow := none } rfl rfl
  exact ⟨h.1, h.2.1 (by norm_num)⟩

/-- C1 counterexample: in the DST zone `dstTz` (offset 0 before instant
100000, +3600 after), the daily reminder due at local 10:00:00 rolls to the
absolute instant exactly 24h later, whose local wall-clock time is
11:00:00 — the local hour is not preserved across the transition, refuting
the claim that the next instant always has the same local
hour/minute/second. -/
theorem C1_daily_dst_counterexample :
    nextOccurrence dstDb dailyRem = some 122400 ∧
    localClock dstDb "Ex/DST" 36000 = 36000 ∧
    localClock dstDb "Ex/DST" 122400 = 39600 ∧
    localClock dstDb "Ex/DST" 122400 ≠ localClock dstDb "Ex/DST" 36000 := by
  refine ⟨?_, ?_, ?_, ?_⟩ <;> decide

/-- C2 (amended): for a weekly recurrence descriptor with interval `k ≥ 1`,
the computed next occurrence is strictly later than the input. Its weekday
computed from the wall-clock arithmetic of the calculator — that is, in the
offset fixed at the input instant — equals the target `dayOfWeek` whenever
that target lies in 0..6, and its true local weekday equals the target
whenever additionally the UTC offset of the zone at the result equals the offset
at the input (near a DST transition close to local midnight the true local
weekday can differ). When `dayOfWeek` is absent it defaults to the local
weekday of the last local instant. -/
theorem C2_weekly_nextOccurrence (db : String → Timezone) (r : Reminder)
    (rc : Recurring) (hrec : r.recurring = some rc) (hk : rc.rtype = "weekly")
    (hint : 1 ≤ rc.interval) :
    ∃ u, nextOccurrence db r = some u ∧
      r.when_iso < u ∧
      (∀ d, rc.dow = some d → 0 ≤ d → d < 7 →
        ((u + (db r.timezone).utcOffset r.when_iso) / 86400) % 7 = d ∧
        ((db r.timezone).utcOffset u = (db r.timezone).utcOffset r.when_iso →
          localWeekday db r.timezone u = d)) ∧
      (rc.dow = none →
        ((u + (db r.timezone).utcOffset r.when_iso) / 86400) % 7 =
          localWeekday db r.timezone r.when_iso) := by
  obtain ⟨hb0, hb7⟩ := weekday_bounds (astimezone (db r.timezone) r.when_iso)
  refine ⟨(advanceToWeekday (rc.dow.getD (astimezone (db r.timezone) r.when_iso).weekday) 7
      ((astimezone (db r.timezone) r.when_iso).addSeconds (rc.interval * (7 * 86400)))).toUTC,
    nextOccurrence_weekly db r rc hrec hk, ?_, ?_, ?_⟩
  · have hge := advanceToWeekday_naive_ge
      (rc.dow.getD (astimezone (db r.timezone) r.when_iso).weekday) 7
      ((astimezone (db r.timezone) r.when_iso).addSeconds (rc.interval * (7 * 86400)))
    have hoff := advanceToWeekday_off
      (rc.dow.getD (astimezone (db r.timezone) r.when_iso).weekday) 7
      ((astimezone (db r.timezone) r.when_iso).addSeconds (rc.interval * (7 * 86400)))
    have h1 : ((astimezone (db r.timezone) r.when_iso).addSeconds
        (rc.interval * (7 * 86400))).naive =
        r.when_iso + (db r.timezone).utcOffset r.when_iso + rc.interval * 604800 := by
      simp [astimezone, AwareDT.addSeconds]
      try ring
    have h2 : ((astimezone (db r.timezone) r.when_iso).addSeconds
        (rc.interval * (7 * 86400))).off = (db r.timezone).utcOffset r.when_iso := rfl
    unfold AwareDT.toUTC
    rw [hoff, h2]
    omega
  · intro d hd hd0 hd7
    have hmain := advance_toUTC_weekday d
      ((astimezone (db r.timezone) r.when_iso).addSeconds (rc.interval * (7 * 86400))) hd0 hd7
    rw [hd]
    simp only [Option.getD_some]
    refine ⟨hmain, fun hoff2 => ?_⟩
    unfold localWeekday localDay
    rw [hoff2]
    exact hmain
  · intro hnone
    have hmain := advance_toUTC_weekday ((astimezone (db r.timezone) r.when_iso).weekday)
      ((astimezone (db r.timezone) r.when_iso).addSeconds (rc.interval * (7 * 86400))) hb0 hb7
    rw [hnone]
    simp only [Option.getD_none]
    exact hmain

/-- C2 witness: a concrete weekly reminder in a fixed-offset zone, due
Monday 00:00 with target weekday 2, rolls to Wednesday of the following
week, nine days later, whose local weekday is 2. -/
theorem C2_weekly_nextOccurrence_witness :
    nextOccurrence utcDb weeklyUtcRem = some 777600 ∧
    localWeekday utcDb "UTC" 777600 = 2 := by
  have hval : nextOccurrence utcDb weeklyUtcRem = some 777600 := by decide
  obtain ⟨u, hu, hlt, hdow, hnone⟩ := C2_weekly_nextOccurrence utcDb weeklyUtcRem
    { rtype := "weekly", interval := 1, dow := some 2 } rfl rfl (by norm_num)
  have hEq : u = 777600 := by
    rw [hval] at hu
    exact (Option.some.inj hu).symm
  subst hEq
  exact ⟨hval, (hdow 2 rfl (by norm_num) (by norm_num)).2 rfl⟩

/-- C2 counterexample: in the DST zone `dstTz2`, a weekly reminder due local
Saturday 23:00 (weekday 5) targeting weekday 5 rolls to an instant whose
true local time is Sunday 00:00 — local weekday 6, not the target 5 —
because the wall-clock arithmetic keeps the pre-transition offset. This
refutes the claim that every computed next occurrence has local weekday
equal to the target. -/
theorem C2_weekly_dst_counterexample :
    nextOccurrence dstDb2 weeklyRem = some 1119600 ∧
    localWeekday dstDb2 "Ex/DST2" 514800 = 5 ∧
    localWeekday dstDb2 "Ex/DST2" 1119600 = 6 := by
  refine ⟨?_, ?_, ?_⟩ <;> decide

/-- C3 (amended): `schedule_once` registers an additional pending timer and
cancels nothing — the job list after arming is exactly the previous list
with the new job appended — so an id that already has a pending timer gets
a second pending timer rather than a replacement. -/
theorem C3_schedule_once_appends (jobs : List Job) (when : Int) (rid : String) :
    schedule_once jobs when rid = jobs ++ [⟨when, rid, rid⟩] := rfl

/-- C3 counterexample: snoozing the armed one-shot reminder r1 (armed at
instant 100, snoozed at instant 50 for 5 minutes) leaves two pending timers
for r1 — the old one is not cancelled — and firing the previously armed
timer still attempts a delivery and marks the reminder done, refuting the
claim that after a snooze the reminder is delivered only at the most
recently armed instant. -/
theorem C3_snooze_double_timer_counterexample :
    (snooze_action oneShotStore [⟨100, "r1", "r1"⟩] 7 freeProfile "r1" 5 50).jobs =
      [⟨100, "r1", "r1"⟩, ⟨350, "r1", "r1"⟩] ∧
    ((snooze_action oneShotStore [⟨100, "r1", "r1"⟩] 7 freeProfile "r1" 5 50).jobs.filter
      (fun j => j.name = "r1")).length = 2 ∧
    (run_reminder_job utcDb
      (snooze_action oneShotStore [⟨100, "r1", "r1"⟩] 7 freeProfile "r1" 5 50).store
      (snooze_action oneShotStore [⟨100, "r1", "r1"⟩] 7 freeProfile "r1" 5 50).jobs
      "r1" true).attempted = true ∧
    (storeGet (run_reminder_job utcDb
      (snooze_action oneShotStore [⟨100, "r1", "r1"⟩] 7 freeProfile "r1" 5 50).store
      (snooze_action oneShotStore [⟨100, "r1", "r1"⟩] 7 freeProfile "r1" 5 50).jobs
      "r1" true).store "r1").map Reminder.done = some true := by
  refine ⟨?_, ?_, ?_, ?_⟩ <;> decide

/-- C4: when the fire handler runs with a failing delivery (`sendOk` false),
the state transition in the `finally` block still happens — a reminder with
a well-formed recurrence descriptor has its due instant advanced to the
next occurrence, is persisted, and is re-armed with its completion flag
still false; a non-recurring reminder is marked completed and persisted. -/
theorem C4_failed_delivery_still_transitions (db : String → Timezone) (store : Store)
    (jobs : List Job) (rid : String) (r : Reminder)
    (hget : storeGet store rid = some r) (hdone : r.done = false) :
    (∀ rc, r.recurring = some rc → (rc.rtype = "daily" ∨ rc.rtype = "weekly") →
      ∃ nw, nextOccurrence db r = some nw ∧
        run_reminder_job db store jobs rid false =
          ⟨storePut store { r with when_iso := nw }, schedule_once jobs nw r.id, true, false⟩ ∧
        ({ r with when_iso := nw } : Reminder).done = false) ∧
    (r.recurring = none →
      run_reminder_job db store jobs rid false =
        ⟨storePut store { r with done := true }, jobs, true, false⟩) := by
  constructor
  · intro rc hrc hkind
    have hnext : ∃ nw, nextOccurrence db r = some nw := by
      rcases hkind with h | h
      · exact ⟨_, nextOccurrence_daily db r rc hrc h⟩
      · exact ⟨_, nextOccurrence_weekly db r rc hrc h⟩
    obtain ⟨nw, hnw⟩ := hnext
    refine ⟨nw, hnw, ?_, ?_⟩
    · simp [run_reminder_job, hget, hdone, hrc, hnw, schedule_once]
    · simp [hdone]
  · intro hrec
    simp [run_reminder_job, hget, hdone, hrec]

/-- C4 witness: the concrete daily reminder r2, fired with a failing
delivery, is advanced, persisted and re-armed with its completion flag
still false. -/
theorem C4_failed_delivery_still_transitions_witness :
    ∃ nw, nextOccurrence utcDb recurRem = some nw ∧
      run_reminder_job utcDb recurStore [] "r2" false =
        ⟨storePut recurStore { recurRem with when_iso := nw },
         schedule_once [] nw recurRem.id, true, false⟩ ∧
      ({ recurRem with when_iso := nw } : Reminder).done = false :=
  (C4_failed_delivery_still_transitions utcDb recurStore [] "r2" recurRem rfl rfl).1
    { rtype := "daily", interval := 1, dow := none } rfl (Or.inl rfl)

/-- C5: a timer firing whose reminder id is absent from the store, or whose
stored reminder is already completed, is a no-op — no delivery is attempted
and neither the store nor the pending jobs change; in particular, after a
one-shot reminder fires and is marked done, a second firing for the same id
attempts no second delivery and changes nothing. -/
theorem C5_fire_absent_or_done_noop (db : String → Timezone) (store : Store)
    (jobs : List Job) (rid : String) (ok : Bool) :
    (storeGet store rid = none →
      run_reminder_job db store jobs rid ok = ⟨store, jobs, false, false⟩) ∧
    (∀ r, storeGet store rid = some r → r.done = true →
      run_reminder_job db store jobs rid ok = ⟨store, jobs, false, false⟩) ∧
    (∀ r, storeGet store rid = some r → r.done = false → r.recurring = none → r.id = rid →
      run_reminder_job db
          (run_reminder_job db store jobs rid ok).store
          (run_reminder_job db store jobs rid ok).jobs rid ok =
        ⟨(run_reminder_job db store jobs rid ok).store,
         (run_reminder_job db store jobs rid ok).jobs, false, false⟩) := by
  refine ⟨?_, ?_, ?_⟩
  · intro h
    simp [run_reminder_job, h]
  · intro r h hdone
    simp [run_reminder_job, h, hdone]
  · intro r h hdone hrec hid
    have h1 : run_reminder_job db store jobs rid ok =
        ⟨storePut store { r with done := true }, jobs, true, ok⟩ := by
      simp [run_reminder_job, h, hdone, hrec]
    rw [h1]
    have h2 : storeGet (storePut store { r with done := true }) rid =
        some { r with done := true } := by
      have h3 := storeGet_storePut_self store { r with done := true }
      simpa [hid] using h3
    simp [run_reminder_job, h2]

/-- C5 witness: a fire for the completed reminder q and for an unknown id
are no-ops, and a second fire for the one-shot reminder r1 after its first
firing attempts no delivery and changes nothing. -/
theorem C5_fire_absent_or_done_noop_witness :
    run_reminder_job utcDb startupStore [] "q" true = ⟨startupStore, [], false, false⟩ ∧
    run_reminder_job utcDb startupStore [] "nope" true = ⟨startupStore, [], false, false⟩ ∧
    run_reminder_job utcDb
        (run_reminder_job utcDb oneShotStore [] "r1" true).store
        (run_reminder_job utcDb oneShotStore [] "r1" true).jobs "r1" true =
      ⟨(run_reminder_job utcDb oneShotStore [] "r1" true).store,
       (run_reminder_job utcDb oneShotStore [] "r1" true).jobs, false, false⟩ := by
  refine ⟨?_, ?_, ?_⟩
  · exact (C5_fire_absent_or_done_noop utcDb startupStore [] "q" true).2.1 doneRem rfl rfl
  · exact (C5_fire_absent_or_done_noop utcDb startupStore [] "nope" true).1 rfl
  · exact (C5_fire_absent_or_done_noop utcDb oneShotStore [] "r1" true).2.2 oneShotRem
      rfl rfl rfl rfl

/-- C6: a snooze on an existing reminder owned by the caller is refused,
leaving the store (hence due instant and counter) and jobs unchanged, when
`snoozes_used` has reached the tier snooze limit; otherwise the due instant
is updated and `snoozes_used` incremented by exactly one. The limit-th
snooze (from counter limit − 1) succeeds and brings the counter to exactly
the limit, and a counter at most the limit stays at most the limit. The
limits are FREE = 1, SILVER = 3, GOLD = 5, PLATINUM = 10. -/
theorem C6_snooze_limit_enforced (store : Store) (jobs : List Job) (caller : Int)
    (profile : UserProfile) (rid : String) (minutes now : Int) (r : Reminder)
    (hget : storeGet store rid = some r) (hown : r.user_id = caller) (hid : r.id = rid) :
    (get_snooze_limit profile ≤ r.snoozes_used →
      snooze_action store jobs caller profile rid minutes now =
        ⟨store, jobs, .limitReached⟩) ∧
    (r.snoozes_used < get_snooze_limit profile →
      snooze_action store jobs caller profile rid minutes now =
        ⟨storePut store
            { r with when_iso := now + minutes * 60, snoozes_used := r.snoozes_used + 1 },
         schedule_once jobs (now + minutes * 60) r.id, .snoozed⟩) ∧
    (r.snoozes_used = get_snooze_limit profile - 1 →
      ∀ r2, storeGet (snooze_action store jobs caller profile rid minutes now).store rid =
          some r2 → r2.snoozes_used = get_snooze_limit profile) ∧
    (r.snoozes_used ≤ get_snooze_limit profile →
      ∀ r2, storeGet (snooze_action store jobs caller profile rid minutes now).store rid =
          some r2 → r2.snoozes_used ≤ get_snooze_limit profile) ∧
    get_snooze_limit { user_id := 0, is_premium := false, premium_tier := "FREE" } = 1 ∧
    get_snooze_limit { user_id := 0, is_premium := true, premium_tier := "SILVER" } = 3 ∧
    get_snooze_limit { user_id := 0, is_premium := true, premium_tier := "GOLD" } = 5 ∧
    get_snooze_limit { user_id := 0, is_premium := true, premium_tier := "PLATINUM" } = 10 := by
  have hrefuse : ∀ _h : get_snooze_limit profile ≤ r.snoozes_used,
      snooze_action store jobs caller profile rid minutes now =
        ⟨store, jobs, .limitReached⟩ := by
    intro hle
    simp [snooze_action, hget, hown, hle]
  have hsucc : ∀ _h : r.snoozes_used < get_snooze_limit profile,
      snooze_action store jobs caller profile rid minutes now =
        ⟨storePut store
            { r with when_iso := now + minutes * 60, snoozes_used := r.snoozes_used + 1 },
         schedule_once jobs (now + minutes * 60) r.id, .snoozed⟩ := by
    intro hlt
    have hnot : ¬ (get_snooze_limit profile ≤ r.snoozes_used) := not_le.mpr hlt
    simp [snooze_action, hget, hown, hnot]
  have hput : ∀ _h : r.snoozes_used < get_snooze_limit profile,
      storeGet (snooze_action store jobs caller profile rid minutes now).store rid =
        some { r with
                when_iso := now + minutes * 60,
                snoozes_used := r.snoozes_used + 1 } := by
    intro hlt
    rw [hsucc hlt, ← hid]
    exact storeGet_storePut_self store
      { r with when_iso := now + minutes * 60, snoozes_used := r.snoozes_used + 1 }
  refine ⟨hrefuse, hsucc, ?_, ?_, by decide, by decide, by decide, by decide⟩
  · intro hl r2 hr2
    have hlt : r.snoozes_used < get_snooze_limit profile := by omega
    have h4 := (hput hlt).symm.trans hr2
    obtain h3 := Option.some.inj h4
    rw [← h3]
    show r.snoozes_used + 1 = get_snooze_limit profile
    omega
  · intro hle r2 hr2
    by_cases hlt : r.snoozes_used < get_snooze_limit profile
    · have h4 := (hput hlt).symm.trans hr2
      obtain h3 := Option.some.inj h4
      rw [← h3]
      show r.snoozes_used + 1 ≤ get_snooze_limit profile
      omega
    · rw [hrefuse (by omega)] at hr2
      have h4 : some r = some r2 := hget.symm.trans hr2
      obtain h3 := Option.some.inj h4
      rw [← h3]
      exact hle

/-- C6 witness: snoozing the free-tier one-shot reminder r1 (counter 0,
limit 1) succeeds and brings the counter to exactly the limit. -/
theorem C6_snooze_limit_enforced_witness :
    snooze_action oneShotStore [] 7 freeProfile "r1" 5 50 =
      ⟨storePut oneShotStore
          { oneShotRem with
             when_iso := 50 + 5 * 60,
             snoozes_used := oneShotRem.snoozes_used + 1 },
       schedule_once [] (50 + 5 * 60) oneShotRem.id, .snoozed⟩ ∧
    ∀ r2, storeGet (snooze_action oneShotStore [] 7 freeProfile "r1" 5 50).store "r1" =
        some r2 → r2.snoozes_used = get_snooze_limit freeProfile := by
  have h := C6_snooze_limit_enforced oneShotStore [] 7 freeProfile "r1" 5 50 oneShotRem
    rfl rfl rfl
  exact ⟨h.2.1 (by decide), h.2.2.1 (by decide)⟩

/-- C7: `can_create` denies when the active count has reached the tier
max-active limit, denies a non-premium profile out of credits, and allows
otherwise; in particular it denies at exactly the limit and allows at
limit − 1 for a profile that is premium or has positive credits. -/
theorem C7_can_create_policy (profile : UserProfile) (n : Int) :
    ((get_user_tier_info profile).max_active ≤ n → (can_create profile n).1 = false) ∧
    (profile.is_premium = false → profile.credits ≤ 0 → (can_create profile n).1 = false) ∧
    (n < (get_user_tier_info profile).max_active →
      (profile.is_premium = true ∨ 0 < profile.credits) → (can_create profile n).1 = true) ∧
    (can_create profile ((get_user_tier_info profile).max_active)).1 = false ∧
    ((profile.is_premium = true ∨ 0 < profile.credits) →
      (can_create profile ((get_user_tier_info profile).max_active - 1)).1 = true) := by
  have hallow : ∀ m : Int, m < (get_user_tier_info profile).max_active →
      (profile.is_premium = true ∨ 0 < profile.credits) →
      (can_create profile m).1 = true := by
    intro m hm hok
    have hcond : ¬ (¬ profile.is_premium ∧ profile.credits ≤ 0) := by
      rintro ⟨hnp, hc⟩
      rcases hok with hp | hc2
      · exact hnp hp
      · omega
    simp only [can_create]
    rw [if_neg (not_le.mpr hm), if_neg hcond]
  refine ⟨?_, ?_, hallow n, ?_, fun hok => hallow _ (by omega) hok⟩
  · intro h
    simp only [can_create]
    rw [if_pos h]
  · intro hp hc
    simp only [can_create]
    by_cases h1 : (get_user_tier_info profile).max_active ≤ n
    · rw [if_pos h1]
    · rw [if_neg h1, if_pos ⟨by simp [hp], hc⟩]
  · simp only [can_create]
    rw [if_pos (le_refl _)]

/-- C7 witness: the free-tier profile with positive credits is denied at an
active count equal to its limit and allowed one below it. -/
theorem C7_can_create_policy_witness :
    (can_create freeProfile ((get_user_tier_info freeProfile).max_active)).1 = false ∧
    (can_create freeProfile ((get_user_tier_info freeProfile).max_active - 1)).1 = true := by
  have h := C7_can_create_policy freeProfile 0
  exact ⟨h.2.2.2.1, h.2.2.2.2 (Or.inr (by decide))⟩

/-- C8: the startup pass arms exactly one timer for every stored reminder
whose completion flag is false — none for completed ones — and a
non-completed reminder whose stored due instant is already past is armed at
now plus the 2-second grace delay: strictly after now (so not fired in the
same synchronous pass) and different from the stale past instant. -/
theorem C8_startup_arms (store : Store) (now : Int) (r : Reminder)
    (hpast : r.when_iso < now) :
    schedule_all_on_startup store [] now =
      (store.filter (fun p => !p.2.done)).map
        (fun p => ⟨startupWhen now p.2, p.2.id, p.2.id⟩) ∧
    startupWhen now r = now + 2 ∧
    now < startupWhen now r ∧
    startupWhen now r ≠ r.when_iso := by
  refine ⟨by simpa using schedule_all_spec store [] now, ?_, ?_, ?_⟩
  · unfold startupWhen
    rw [if_pos hpast]
  · unfold startupWhen
    rw [if_pos hpast]
    omega
  · unfold startupWhen
    rw [if_pos hpast]
    omega

/-- C8 witness: at startup instant 1000 over a store with one past-due, one
completed and one future reminder, the armed jobs are exactly the
non-completed reminders, and the past-due one is armed at 1002. -/
theorem C8_startup_arms_witness :
    schedule_all_on_startup startupStore [] 1000 =
      (startupStore.filter (fun p => !p.2.done)).map
        (fun p => ⟨startupWhen 1000 p.2, p.2.id, p.2.id⟩) ∧
    startupWhen 1000 pastRem = 1000 + 2 ∧
    1000 < startupWhen 1000 pastRem ∧
    startupWhen 1000 pastRem ≠ pastRem.when_iso :=
  C8_startup_arms startupStore 1000 pastRem (by decide)

/-- C9: when a recurring reminder rolls over on firing, the persisted
record changes only in its due instant: id, chat id, owner, text, timezone,
creation instant, snooze counter, recurrence descriptor, completion flag
and the remaining payload fields are all unchanged — in particular the
snooze counter is not reset across occurrences. -/
theorem C9_rollover_frame (db : String → Timezone) (store : Store) (jobs : List Job)
    (rid : String) (r : Reminder) (rc : Recurring) (nw : Int) (ok : Bool)
    (hget : storeGet store rid = some r) (hdone : r.done = false)
    (hrec : r.recurring = some rc) (hnext : nextOccurrence db r = some nw) :
    storeGet (run_reminder_job db store jobs rid ok).store r.id =
      some { r with when_iso := nw } ∧
    ∀ r2, storeGet (run_reminder_job db store jobs rid ok).store r.id = some r2 →
      r2.when_iso = nw ∧ r2.id = r.id ∧ r2.user_id = r.user_id ∧ r2.chat_id = r.chat_id ∧
      r2.text = r.text ∧ r2.timezone = r.timezone ∧ r2.created_at = r.created_at ∧
      r2.snoozes_used = r.snoozes_used ∧ r2.recurring = r.recurring ∧ r2.done = r.done ∧
      r2.category = r.category ∧ r2.priority = r.priority ∧ r2.tags = r.tags ∧
      r2.location = r.location ∧ r2.template_id = r.template_id := by
  have h1 : run_reminder_job db store jobs rid ok =
      ⟨storePut store { r with when_iso := nw }, schedule_once jobs nw r.id, true, ok⟩ := by
    simp [run_reminder_job, hget, hdone, hrec, hnext]
  have h2 : storeGet (run_reminder_job db store jobs rid ok).store r.id =
      some { r with when_iso := nw } := by
    rw [h1]
    exact storeGet_storePut_self store { r with when_iso := nw }
  refine ⟨h2, ?_⟩
  intro r2 hr2
  have h4 := h2.symm.trans hr2
  obtain h3 := Option.some.inj h4
  rw [← h3]
  exact ⟨rfl, rfl, rfl, rfl, rfl, rfl, rfl, rfl, rfl, rfl, rfl, rfl, rfl, rfl, rfl⟩

/-- C9 witness: firing the daily reminder r2 persists a record equal to the
old one except for the due instant; the snooze counter and completion flag
are untouched. -/
theorem C9_rollover_frame_witness :
    storeGet (run_reminder_job utcDb recurStore [] "r2" true).store recurRem.id =
      some { recurRem with when_iso := 86900 } ∧
    ∀ r2, storeGet (run_reminder_job utcDb recurStore [] "r2" true).store recurRem.id =
        some r2 → r2.snoozes_used = recurRem.snoozes_used ∧ r2.done = recurRem.done := by
  have h := C9_rollover_frame utcDb recurStore [] "r2" recurRem
    { rtype := "daily", interval := 1, dow := none } 86900 true rfl rfl rfl (by decide)
  refine ⟨h.1, fun r2 hr2 => ?_⟩
  have h5 := h.2 r2 hr2
  exact ⟨h5.2.2.2.2.2.2.2.1, h5.2.2.2.2.2.2.2.2.2.1⟩

/-- C10: tier limits are resolved through `get_user_tier_info`, which
returns the FREE entry (max 20 active, 1 snooze) whenever `is_premium` is
false — regardless of `premium_tier` — and whenever `premium_tier` is not
one of FREE, SILVER, GOLD or PLATINUM; redeeming a plan code whose plan
name is not a known tier sets `is_premium` but leaves the user on FREE-tier
limits. -/
theorem C10_unknown_tier_falls_back_to_free (profile : UserProfile) (code : RedeemCode) :
    (profile.is_premium = false → get_user_tier_info profile = FREE_TIER_INFO) ∧
    (profile.premium_tier ≠ "FREE" → profile.premium_tier ≠ "SILVER" →
      profile.premium_tier ≠ "GOLD" → profile.premium_tier ≠ "PLATINUM" →
      get_user_tier_info profile = FREE_TIER_INFO) ∧
    FREE_TIER_INFO.max_active = 20 ∧ FREE_TIER_INFO.snooze_limit = 1 ∧
    (code.plan_name.getD "PREMIUM" ≠ "FREE" → code.plan_name.getD "PREMIUM" ≠ "SILVER" →
      code.plan_name.getD "PREMIUM" ≠ "GOLD" → code.plan_name.getD "PREMIUM" ≠ "PLATINUM" →
      (redeem_plan profile code).is_premium = true ∧
      get_user_tier_info (redeem_plan profile code) = FREE_TIER_INFO ∧
      get_snooze_limit (redeem_plan profile code) = 1 ∧
      (get_user_tier_info (redeem_plan profile code)).max_active = 20) := by
  refine ⟨?_, ?_, rfl, rfl, ?_⟩
  · intro h
    simp [get_user_tier_info, h, PREMIUM_TIERS]
  · intro h1 h2 h3 h4
    by_cases hp : profile.is_premium
    · simp [get_user_tier_info, hp, PREMIUM_TIERS, h1, h2, h3, h4]
    · simp [get_user_tier_info, hp, PREMIUM_TIERS]
  · intro h1 h2 h3 h4
    have hinfo : get_user_tier_info (redeem_plan profile code) = FREE_TIER_INFO := by
      simp [get_user_tier_info, redeem_plan, PREMIUM_TIERS, h1, h2, h3, h4]
    exact ⟨rfl, hinfo, by simp [get_snooze_limit, hinfo, FREE_TIER_INFO],
      by simp [hinfo, FREE_TIER_INFO]⟩

/-- C10 witness: redeeming a plan code named DIAMOND marks the profile
premium but leaves it on FREE-tier limits. -/
theorem C10_unknown_tier_falls_back_to_free_witness :
    (redeem_plan freeProfile planCode).is_premium = true ∧
    get_user_tier_info (redeem_plan freeProfile planCode) = FREE_TIER_INFO ∧
    get_snooze_limit (redeem_plan freeProfile planCode) = 1 ∧
    (get_user_tier_info (redeem_plan freeProfile planCode)).max_active = 20 :=
  (C10_unknown_tier_falls_back_to_free freeProfile planCode).2.2.2.2
    (by decide) (by decide) (by decide) (by decide)

end ReminderBot
